import Mathlib

/-!
Shallow embedding of `src/src-tauri/src/main.rs` of the `desktop_partner`
repository: three Tauri command handlers (`generate_response`,
`analyze_emotion`, `get_system_info`) together with their data-transfer
records, and proofs of the specification's claims about them.

Modelling conventions:
  * A Rust `String` is a Lean `String` (a list of Unicode scalar values).
    Rust `String::len` counts UTF-8 bytes, embedded here as `byteLen`.
    Rust `str::contains` is byte-level substring search; on valid UTF-8 that
    coincides with character-level substring occurrence (UTF-8 is
    self-synchronizing), embedded here as `strContains`.
  * `u32` values are `Nat` reduced modulo `2 ^ 32` where a cast occurs
    (`prompt.len() as u32`).
  * The `f32` fields `confidence` and `intensity` are only ever assigned the
    literal constants `0.8` and `0.7` and no arithmetic is performed on them,
    so they are modelled as rationals.
  * `Result<T, String>` is `Except String T`.
  * `get_system_info` reads the compile-time constants
    `std::env::consts::OS` and `std::env::consts::ARCH`; these are modelled
    as explicit parameters `os` and `arch` of the embedded function.
  * `serde_json::json!` builds a JSON object with a fixed shape; it is
    embedded as the structure `SystemInfo`.
-/

namespace DesktopPartner

/-- Number of bytes of the UTF-8 encoding of one Unicode scalar value,
as used by Rust's byte-counting `String::len`. -/
def charUtf8Size (c : Char) : Nat :=
  if c.toNat < 0x80 then 1
  else if c.toNat < 0x800 then 2
  else if c.toNat < 0x10000 then 3
  else 4

/-- UTF-8 byte length of a list of characters. -/
def byteLenL (l : List Char) : Nat :=
  (l.map charUtf8Size).sum

/-- Embedding of Rust `String::len`: the UTF-8 byte length of the string. -/
def byteLen (s : String) : Nat :=
  byteLenL s.data

/-- Helper for substring search: does `pat` start the list `l`? -/
def listLeads : List Char → List Char → Bool
  | [], _ => true
  | _ :: _, [] => false
  | p :: ps, c :: cs => p == c && listLeads ps cs

/-- Helper for substring search: does `pat` occur contiguously in `l`? -/
def occursIn (pat : List Char) : List Char → Bool
  | [] => pat.isEmpty
  | c :: cs => listLeads pat (c :: cs) || occursIn pat cs

/-- Embedding of Rust `str::contains(pat)`: `pat` occurs as a contiguous
substring of `s`. -/
def strContains (s pat : String) : Bool :=
  occursIn pat.data s.data

/-- Embedding of the Rust struct `LLMResponse`
(`src/src-tauri/src/main.rs`, lines 7-11).  `tokens_used` holds a `u32`,
modelled as a `Nat` below `2 ^ 32`. -/
structure LLMResponse where
  text : String
  tokens_used : Option Nat
  model : String
deriving DecidableEq

/-- Embedding of the Rust struct `EmotionAnalysis`
(`src/src-tauri/src/main.rs`, lines 14-18). -/
structure EmotionAnalysis where
  emotion : String
  confidence : ℚ
  intensity : ℚ
deriving DecidableEq

/-- The nested `memory_available` object built by `get_system_info`. -/
structure MemoryInfo where
  total : Nat
  available : Nat
  percent_used : Nat
deriving DecidableEq

/-- The JSON object built by `get_system_info`
(`src/src-tauri/src/main.rs`, lines 52-65), as a fixed-shape record. -/
structure SystemInfo where
  platform : String
  architecture : String
  memory_available : MemoryInfo
  llm_models : List String
deriving DecidableEq

/-- Embedding of the handler `generate_response`
(`src/src-tauri/src/main.rs`, lines 21-28):
`text` is `format!("로컬 LLM 응답: {}", prompt)`, `tokens_used` is
`Some(prompt.len() as u32)` (byte length cast to `u32`), `model` is the
constant `"phi-3.5-mini"`. -/
def generate_response (prompt : String) : Except String LLMResponse :=
  Except.ok
    { text := ("로컬 LLM 응답: ") ++ prompt
    , tokens_used := some (byteLen prompt % 2 ^ 32)
    , model := "phi-3.5-mini" }

/-- Embedding of the handler `analyze_emotion`
(`src/src-tauri/src/main.rs`, lines 31-48): an ordered chain of substring
checks choosing the emotion label, then constant confidence `0.8` and
intensity `0.7`. -/
def analyze_emotion (text : String) : Except String EmotionAnalysis :=
  let emotion :=
    if strContains text ("기쁘") || strContains text ("좋") then "happy"
    else if strContains text ("슬프") || strContains text ("우울") then "sad"
    else if strContains text ("화나") || strContains text ("분노") then "angry"
    else "neutral"
  Except.ok { emotion := emotion, confidence := 0.8, intensity := 0.7 }

/-- Embedding of the handler `get_system_info`
(`src/src-tauri/src/main.rs`, lines 51-67): the compile-time environment
constants are passed in as `os` and `arch`; everything else is hardcoded. -/
def get_system_info (os arch : String) : Except String SystemInfo :=
  Except.ok
    { platform := os
    , architecture := arch
    , memory_available :=
        { total := 8589934592, available := 4294967296, percent_used := 50 }
    , llm_models := ["phi-3.5-mini", "emotion-analyzer", "speech-recognition"] }

/-! Sanity checks of the embedding on concrete inputs. -/

example : strContains ("오늘 기쁘다") ("기쁘") = true := by decide

example : strContains ("hello") ("기쁘") = false := by decide

example : byteLen ("hello") = 5 := by decide

example : byteLen ("기") = 3 := by decide

example :
    ((analyze_emotion ("오늘 기쁘다")).map (fun a => a.emotion)).toOption =
      some "happy" := by decide

/-! Helper lemmas. -/

theorem charUtf8Size_pos (c : Char) : 1 ≤ charUtf8Size c := by
  unfold charUtf8Size
  split_ifs <;> norm_num

theorem length_le_byteLenL (l : List Char) : l.length ≤ byteLenL l := by
  induction l with
  | nil => simp [byteLenL]
  | cons c t ih =>
    have hc := charUtf8Size_pos c
    simp only [byteLenL, List.map_cons, List.sum_cons, List.length_cons] at *
    omega

theorem length_lt_byteLenL (l : List Char)
    (h : l.any (fun c => decide (1 < charUtf8Size c)) = true) :
    l.length < byteLenL l := by
  induction l with
  | nil => simp at h
  | cons c t ih =>
    simp only [List.any_cons, Bool.or_eq_true, decide_eq_true_eq] at h
    have hc := charUtf8Size_pos c
    have ht := length_le_byteLenL t
    simp only [byteLenL, List.map_cons, List.sum_cons, List.length_cons] at *
    rcases h with h | h
    · omega
    · have := ih h
      omega

theorem listLeads_append (pat r : List Char) :
    listLeads pat (pat ++ r) = true := by
  induction pat with
  | nil => rfl
  | cons p ps ih => simp [listLeads, ih]

theorem occursIn_self (pat : List Char) : occursIn pat pat = true := by
  cases pat with
  | nil => rfl
  | cons c cs =>
    have h := listLeads_append (c :: cs) []
    simp only [List.append_nil] at h
    simp [occursIn, h]

theorem occursIn_append_left (xs pat l : List Char)
    (h : occursIn pat l = true) : occursIn pat (xs ++ l) = true := by
  induction xs with
  | nil => simpa using h
  | cons x xs ih => simp [occursIn, ih]

theorem string_data_append (a b : String) :
    (a ++ b).data = a.data ++ b.data := by
  cases a
  cases b
  rfl

/-! The claims. -/

/-- C3: for every input, each of the three handlers returns the success
variant (`Except.ok`) of its result; the string-typed error variant is
returned on no path. -/
theorem all_handlers_succeed (P T os arch : String) :
    (∃ r, generate_response P = Except.ok r) ∧
    (∃ a, analyze_emotion T = Except.ok a) ∧
    (∃ s, get_system_info os arch = Except.ok s) ∧
    (∀ e, generate_response P ≠ Except.error e) ∧
    (∀ e, analyze_emotion T ≠ Except.error e) ∧
    (∀ e, get_system_info os arch ≠ Except.error e) := by
  refine ⟨⟨_, rfl⟩, ⟨_, rfl⟩, ⟨_, rfl⟩, ?_, ?_, ?_⟩ <;>
    intro e h <;> exact Except.noConfusion h

/-- C4: on every call, `get_system_info` returns memory figures
total = 8589934592, available = 4294967296, percent_used = 50, and exactly
the three model names. -/
theorem get_system_info_constants (os arch : String) :
    ∃ s, get_system_info os arch = Except.ok s ∧
      s.memory_available =
        { total := 8589934592, available := 4294967296, percent_used := 50 } ∧
      s.llm_models = ["phi-3.5-mini", "emotion-analyzer", "speech-recognition"] :=
  ⟨_, rfl, rfl, rfl⟩

/-- C5: for every input text, `analyze_emotion` returns confidence = 0.8 and
intensity = 0.7, regardless of the matched emotion. -/
theorem analyze_emotion_constant_scores (T : String) :
    ∃ a, analyze_emotion T = Except.ok a ∧
      a.confidence = 0.8 ∧ a.intensity = 0.7 :=
  ⟨_, rfl, rfl, rfl⟩

/-- C9: `generate_response` always populates the optional `tokens_used`
field with `some`, never `none`. -/
theorem generate_response_tokens_present (P : String) :
    ∃ r, generate_response P = Except.ok r ∧ ∃ n, r.tokens_used = some n :=
  ⟨_, rfl, _, rfl⟩

/-- C7: at the concrete prompt "hello", `generate_response` returns exactly
the record with text "로컬 LLM 응답: hello", tokens_used 5, and model
"phi-3.5-mini". -/
theorem generate_response_hello :
    generate_response ("hello") =
      Except.ok
        { text := "로컬 LLM 응답: hello"
        , tokens_used := some 5
        , model := "phi-3.5-mini" } := by
  rfl

/-- C2: `analyze_emotion` picks "happy" when the text contains "기쁘" or
"좋", otherwise "sad" when it contains "슬프" or "우울", otherwise "angry"
when it contains "화나" or "분노", otherwise "neutral" — exactly in this
priority order. -/
theorem analyze_emotion_priority (T : String) :
    ∃ a, analyze_emotion T = Except.ok a ∧
      a.emotion =
        (if strContains T ("기쁘") || strContains T ("좋") then "happy"
         else if strContains T ("슬프") || strContains T ("우울") then "sad"
         else if strContains T ("화나") || strContains T ("분노") then "angry"
         else "neutral") :=
  ⟨_, rfl, rfl⟩

/-- C6: `generate_response` returns text that is the fixed template with
the prompt appended — in particular the prompt occurs verbatim as a
substring — and the constant model "phi-3.5-mini". -/
theorem generate_response_embeds_prompt (P : String) :
    ∃ r, generate_response P = Except.ok r ∧
      r.text = ("로컬 LLM 응답: ") ++ P ∧
      strContains r.text P = true ∧
      r.model = "phi-3.5-mini" := by
  refine ⟨_, rfl, rfl, ?_, rfl⟩
  show occursIn P.data ((("로컬 LLM 응답: ") ++ P).data) = true
  rw [string_data_append]
  exact occursIn_append_left _ _ _ (occursIn_self P.data)

/-- C1 counterexample: the claim says `tokens_used` equals the prompt's
length in characters; on the one-character prompt "기" (3 UTF-8 bytes) the
code returns tokens_used = 3 while the character count is 1. -/
theorem generate_response_tokens_not_chars :
    ((generate_response ("기")).map (fun r => r.tokens_used)).toOption =
        some (some 3) ∧
      ("기").length = 1 ∧ (3 : Nat) ≠ 1 :=
  ⟨by decide, by decide, by decide⟩

/-- C1 amended: `tokens_used` equals the UTF-8 byte length of the prompt,
reduced modulo `2 ^ 32` (the `as u32` cast), not its character count. -/
theorem generate_response_tokens_bytes (P : String) :
    (generate_response P).map (fun r => r.tokens_used) =
      Except.ok (some (byteLen P % 2 ^ 32)) :=
  rfl

/-- C8: each handler is deterministic — two invocations with equal
arguments return identical results.  The handlers are embedded as pure
functions of their arguments alone (the source reads no mutable state),
so the result depends on nothing else. -/
theorem handlers_deterministic (P₁ P₂ T₁ T₂ os₁ os₂ arch₁ arch₂ : String)
    (hP : P₁ = P₂) (hT : T₁ = T₂) (ho : os₁ = os₂) (ha : arch₁ = arch₂) :
    generate_response P₁ = generate_response P₂ ∧
    analyze_emotion T₁ = analyze_emotion T₂ ∧
    get_system_info os₁ arch₁ = get_system_info os₂ arch₂ := by
  subst hP; subst hT; subst ho; subst ha
  exact ⟨rfl, rfl, rfl⟩

/-- Witness for C8 at concrete arguments. -/
theorem handlers_deterministic_witness :
    generate_response ("hi") = generate_response ("hi") ∧
    analyze_emotion ("오늘 기쁘다") = analyze_emotion ("오늘 기쁘다") ∧
    get_system_info ("linux") ("x86_64") = get_system_info ("linux") ("x86_64") :=
  handlers_deterministic ("hi") ("hi") ("오늘 기쁘다") ("오늘 기쁘다")
    ("linux") ("linux") ("x86_64") ("x86_64") rfl rfl rfl rfl

/-- Helper: byte length of a replicated list. -/
theorem byteLenL_replicate (n : Nat) (c : Char) :
    byteLenL (List.replicate n c) = n * charUtf8Size c := by
  simp [byteLenL, List.map_replicate, List.sum_replicate, smul_eq_mul]

/-- C10 counterexample: the claim's clause "differs from the character
count whenever P contains multi-byte characters" fails when the byte
length wraps around the `u32` cast: for `2 ^ 31` copies of the 3-byte
character '기', the byte length is `3 * 2 ^ 31`, whose value modulo
`2 ^ 32` is exactly `2 ^ 31` — the character count. -/
theorem generate_response_tokens_wraparound :
    (generate_response (String.mk (List.replicate (2 ^ 31) ('기')))).map
        (fun r => r.tokens_used) = Except.ok (some (2 ^ 31)) ∧
      (String.mk (List.replicate (2 ^ 31) ('기'))).length = 2 ^ 31 ∧
      charUtf8Size ('기') = 3 := by
  have h3 : charUtf8Size ('기') = 3 := by decide
  refine ⟨?_, ?_, h3⟩
  · have hb : byteLen (String.mk (List.replicate (2 ^ 31) ('기'))) =
        2 ^ 31 * charUtf8Size ('기') :=
      byteLenL_replicate (2 ^ 31) ('기')
    have hm : byteLen (String.mk (List.replicate (2 ^ 31) ('기'))) % 2 ^ 32 =
        2 ^ 31 := by
      rw [hb, h3]
      norm_num
    show Except.ok
        (some (byteLen (String.mk (List.replicate (2 ^ 31) ('기'))) % 2 ^ 32)) =
      Except.ok (some (2 ^ 31))
    rw [hm]
  · show (List.replicate (2 ^ 31) ('기')).length = 2 ^ 31
    rw [List.length_replicate]

/-- C10: `tokens_used` equals the UTF-8 byte length of the prompt reduced
modulo `2 ^ 32`; moreover, provided the byte length does not exceed the
`u32` range, it differs from the character count whenever the prompt
contains a multi-byte character. -/
theorem generate_response_tokens_byte_mod (P : String)
    (hmb : P.data.any (fun c => decide (1 < charUtf8Size c)) = true)
    (hlt : byteLen P < 2 ^ 32) :
    (generate_response P).map (fun r => r.tokens_used) =
        Except.ok (some (byteLen P % 2 ^ 32)) ∧
      byteLen P % 2 ^ 32 ≠ P.length := by
  refine ⟨rfl, ?_⟩
  rw [Nat.mod_eq_of_lt hlt]
  have h := length_lt_byteLenL P.data hmb
  show byteLenL P.data ≠ P.data.length
  omega

/-- Witness for C10 at the concrete prompt "기". -/
theorem generate_response_tokens_byte_mod_witness :
    (("기").data.any (fun c => decide (1 < charUtf8Size c)) = true) ∧
    byteLen ("기") < 2 ^ 32 ∧
    ((generate_response ("기")).map (fun r => r.tokens_used) =
        Except.ok (some (byteLen ("기") % 2 ^ 32)) ∧
      byteLen ("기") % 2 ^ 32 ≠ ("기").length) :=
  ⟨by decide, by decide,
    generate_response_tokens_byte_mod ("기") (by decide) (by decide)⟩

end DesktopPartner
